import Mathlib

set_option linter.unusedVariables false

/-!
Verification of the Mapier Hub place services.

This file embeds the PLI (Place/Location Identifier) sync service, the
Redis cache service and the `find-nearby` HTTP route of the Mapier Hub
backend, and proves the specified properties about them.

Conventions of the embedding:
* Database tables (`places` / `custom_places`) are a list of records; a
  Supabase `update ... eq ... is(col, null)` call is a conditional map
  over that list.
* External calls (the `conflate_place` / `find_nearby_place_new` RPCs,
  the Redis backend) are passed in as explicit outcome parameters.
* JavaScript truthiness on optional strings (`undefined`, `null` and
  `""` are falsy) is modelled by the `truthy` helper, and the
  JavaScript `||` operator by `jsOr` / `orUndef` / `jsOrD`.
-/

namespace MapierHub

/-- Client platform of an observation (the `source_platform` field). -/
inductive Platform
  | ios
  | android
deriving DecidableEq, Repr

/-- Which table a canonical record lives in (`matched_source`). -/
inductive Source
  | places
  | custom_places
deriving DecidableEq, Repr

/-- Resolution method literals of the service (`exact_pli` is the code's
name for the spec's `exact_identifier`, `created_custom` for the spec's
`created_new`). -/
inductive Method
  | exact_pli
  | spatial_match
  | created_custom
deriving DecidableEq, Repr

/-- Bridge resolution hint. -/
inductive Hint
  | cached
  | search_required
deriving DecidableEq, Repr

/-- Structured address object as it appears in requests and responses. -/
structure Address where
  street : Option String := none
  city : Option String := none
  state : Option String := none
  postcode : Option String := none
  country : Option String := none
  formatted : Option String := none
deriving DecidableEq, Repr

/-- JavaScript `String.prototype.trim`: strips leading and trailing
whitespace (modelled over the character list so it is kernel-reducible). -/
def jsTrim (s : String) : String :=
  String.mk
    (((s.toList.dropWhile Char.isWhitespace).reverse.dropWhile Char.isWhitespace).reverse)

/-- JavaScript string truthiness: `null`/`undefined` and `""` are falsy. -/
def truthy : Option String → Bool
  | none => false
  | some s => !(s == "")

/-- JavaScript `a || b` on optional strings. -/
def jsOr (a b : Option String) : Option String :=
  if truthy a then a else b

/-- JavaScript `a || undefined` on an optional string. -/
def orUndef (a : Option String) : Option String :=
  if truthy a then a else none

/-- JavaScript `a || d` with a plain string default. -/
def jsOrD (a : Option String) (d : String) : String :=
  match a with
  | none => d
  | some s => if s == "" then d else s

/-- Embedding of `PLIService.formatAddress`: builds the address object
returned to clients; the `formatted` field falls back to the non-blank
components street, city, state, postcode joined with `", "`. -/
def formatAddress (street city state postcode country formatted : Option String) :
    Address :=
  let components := ([street, city, state, postcode].filterMap id).filter
    (fun c => !(jsTrim c == ""))
  { street := orUndef street
    city := orUndef city
    state := orUndef state
    postcode := orUndef postcode
    country := orUndef country
    formatted := jsOr formatted
      (if components.length > 0 then some (String.intercalate ", " components) else none) }

/-- The synthesized formatted string exactly as claim C8 words it: the
non-empty structured components street, city, state, postcode AND
country, joined with a comma. -/
def claimFormattedWithCountry (street city state postcode country : Option String) :
    Option String :=
  let comps := ([street, city, state, postcode, country].filterMap id).filter
    (fun c => !(c == ""))
  if comps.length > 0 then some (String.intercalate ", " comps) else none

/-- The formatted string of the amended claim C8: the non-blank components
street, city, state, postcode (country excluded) joined with `", "`. -/
def amendedFormatted (street city state postcode : Option String) : Option String :=
  let comps := ([street, city, state, postcode].filterMap id).filter
    (fun c => !(jsTrim c == ""))
  if comps.length > 0 then some (String.intercalate ", " comps) else none

/-- Prefix test over character lists (JavaScript `String.startsWith`),
kernel-reducible. -/
def jsStartsWith (s p : String) : Bool :=
  s.toList.take p.toList.length == p.toList

/-- A row of the `places` / `custom_places` tables (the columns the PLI
service reads or writes; `table` records which table the row is in). -/
structure PlaceRecord where
  id : String
  table : Source
  name : String
  lat : Rat
  lon : Rat
  primary_category : Option String := none
  google_place_id : Option String := none
  apple_place_id : Option String := none
  formatted_address : Option String := none
  street : Option String := none
  city : Option String := none
  state : Option String := none
  postcode : Option String := none
  country : Option String := none
  phone : Option String := none
  website : Option String := none
  source_platform : Option Platform := none
deriving DecidableEq, Repr

/-- The database state: the rows of both tables. -/
abbrev Store := List PlaceRecord

/-- The platform identifier column of a record for a given platform. -/
def getPLI (r : PlaceRecord) (p : Platform) : Option String :=
  match p with
  | Platform.ios => r.apple_place_id
  | Platform.android => r.google_place_id

/-- Overwrite one platform identifier column of a record. -/
def setPLI (r : PlaceRecord) (p : Platform) (v : String) : PlaceRecord :=
  match p with
  | Platform.ios => { r with apple_place_id := some v }
  | Platform.android => { r with google_place_id := some v }

/-- Supabase `update(...).eq(...).is(...)`: apply `f` to every row
satisfying the filter, leave the rest alone. -/
def updateWhere (s : Store) (filt : PlaceRecord → Bool) (f : PlaceRecord → PlaceRecord) :
    Store :=
  s.map (fun r => if filt r then f r else r)

/-- The body of a `resolve` request (the `ResolveRequest` interface). -/
structure ResolveRequest where
  google_place_id : Option String := none
  apple_place_id : Option String := none
  lat : Rat
  lon : Rat
  name : String
  category : Option String := none
  address : Option Address := none
  phone : Option String := none
  website : Option String := none
  source_platform : Platform
deriving DecidableEq, Repr

/-- Embedding of `PLIService.cachePLI`: stage the source platform's
identifier when supplied, then issue one conditional update that fires
only while that platform's column is still null. -/
def cachePLI (store : Store) (table : Source) (placeId : String) (req : ResolveRequest) :
    Store :=
  let updates : List (Platform × String) :=
    (if req.source_platform == Platform.android && truthy req.google_place_id then
        [(Platform.android, req.google_place_id.getD "")]
      else []) ++
    (if req.source_platform == Platform.ios && truthy req.apple_place_id then
        [(Platform.ios, req.apple_place_id.getD "")]
      else [])
  if updates.isEmpty then store
  else
    let column := if req.source_platform == Platform.ios then Platform.ios else Platform.android
    updateWhere store
      (fun r => r.table == table && r.id == placeId && (getPLI r column).isNone)
      (fun r => updates.foldl (fun acc kv => setPLI acc kv.1 kv.2) r)

/-- Embedding of `PLIService.syncPLI`: a write-once-if-null update of one
platform identifier column; `backendError` is the Supabase error
outcome of the update. -/
def syncPLI (store : Store) (placeId : String) (platform : Platform) (pli : String)
    (backendError : Bool) : Store × Bool :=
  let table := if jsStartsWith placeId "custom_" then Source.custom_places else Source.places
  if backendError then (store, false)
  else
    (updateWhere store
      (fun r => r.table == table && r.id == placeId && (getPLI r platform).isNone)
      (fun r => setPLI r platform pli),
     true)

/-- One row returned by the `conflate_place` RPC. -/
structure CandidateMatch where
  matched_source : Source
  matched_id : String
  matched_name : String
  match_confidence : Rat
  distance_meters : Rat
  google_place_id : Option String := none
  apple_place_id : Option String := none
deriving DecidableEq, Repr

/-- The `place` object of a resolve response. -/
structure ResolvedPlace where
  id : String
  source : Source
  name : String
  lat : Rat
  lon : Rat
  category : Option String
  google_place_id : Option String
  apple_place_id : Option String
  address : Option Address
deriving DecidableEq, Repr

/-- The `resolution` object of a resolve response. -/
structure Resolution where
  method : Method
  confidence : Rat
  distance_meters : Option Rat
deriving DecidableEq, Repr

/-- The full resolve response. -/
structure ResolveResponse where
  success : Bool
  place : ResolvedPlace
  resolution : Resolution
deriving DecidableEq, Repr

/-- The row inserted by `PLIService.createCustomPlace` (`uuid` stands for
the `crypto.randomUUID()` draw). -/
def customRecord (req : ResolveRequest) (uuid : String) : PlaceRecord :=
  { id := "custom_" ++ uuid
    table := Source.custom_places
    name := req.name
    lat := req.lat
    lon := req.lon
    primary_category := req.category
    google_place_id := req.google_place_id
    apple_place_id := req.apple_place_id
    formatted_address := req.address.bind (fun a => a.formatted)
    street := req.address.bind (fun a => a.street)
    city := req.address.bind (fun a => a.city)
    state := req.address.bind (fun a => a.state)
    postcode := req.address.bind (fun a => a.postcode)
    country := some (jsOrD (req.address.bind (fun a => a.country)) "US")
    phone := req.phone
    website := req.website
    source_platform := some req.source_platform }

/-- Embedding of `PLIService.resolve`; `rpc` is the outcome of the
`conflate_place` RPC call and `uuid` the `crypto.randomUUID()` draw used
when a custom place must be created. Returns the updated store together
with the response; a conflation error is re-thrown. -/
def resolve (store : Store) (rpc : Except String (List CandidateMatch))
    (req : ResolveRequest) (uuid : String) :
    Except String (Store × ResolveResponse) :=
  match rpc with
  | Except.error e => Except.error ("Conflation failed: " ++ e)
  | Except.ok ms =>
    match ms.head? with
    | some m =>
      if m.matched_source = Source.places then
        let placeData := store.find?
          (fun r => r.table == Source.places && r.id == m.matched_id)
        let store1 := cachePLI store Source.places m.matched_id req
        Except.ok (store1,
          { success := true
            place :=
              { id := m.matched_id
                source := Source.places
                name := m.matched_name
                lat := req.lat
                lon := req.lon
                category := req.category
                google_place_id := jsOr m.google_place_id req.google_place_id
                apple_place_id := jsOr m.apple_place_id req.apple_place_id
                address := placeData.map (fun d =>
                  formatAddress d.street d.city d.state d.postcode d.country none) }
            resolution :=
              { method :=
                  if m.match_confidence = 1 then Method.exact_pli else Method.spatial_match
                confidence := m.match_confidence
                distance_meters := some m.distance_meters } })
      else
        let placeData := store.find?
          (fun r => r.table == Source.custom_places && r.id == m.matched_id)
        let store1 := cachePLI store Source.custom_places m.matched_id req
        Except.ok (store1,
          { success := true
            place :=
              { id := m.matched_id
                source := Source.custom_places
                name := m.matched_name
                lat := req.lat
                lon := req.lon
                category := req.category
                google_place_id := jsOr m.google_place_id req.google_place_id
                apple_place_id := jsOr m.apple_place_id req.apple_place_id
                address := placeData.map (fun d =>
                  formatAddress d.street d.city d.state d.postcode d.country
                    d.formatted_address) }
            resolution :=
              { method :=
                  if m.match_confidence = 1 then Method.exact_pli else Method.spatial_match
                confidence := m.match_confidence
                distance_meters := some m.distance_meters } })
    | none =>
      let newRow := customRecord req uuid
      Except.ok (store ++ [newRow],
        { success := true
          place :=
            { id := newRow.id
              source := Source.custom_places
              name := newRow.name
              lat := newRow.lat
              lon := newRow.lon
              category := req.category
              google_place_id := req.google_place_id
              apple_place_id := req.apple_place_id
              address := req.address }
          resolution :=
            { method := Method.created_custom
              confidence := 1/2
              distance_meters := none } })

/-- The database state after a `resolve` call (unchanged when the call
throws). -/
def resolveStore (store : Store) (rpc : Except String (List CandidateMatch))
    (req : ResolveRequest) (uuid : String) : Store :=
  match resolve store rpc req uuid with
  | Except.ok su => su.1
  | Except.error _ => store

/-- Modelled from the spec: the `conflate_place` database RPC is not in
the repository sources (only its caller is). Per the spec's contract it
applies the layered match policy: an exact platform-identifier match is
returned with `match_confidence = 1.0`; otherwise the geodatabase's
black-box spatial+name matching decides, whose candidate list is the
`spatial` parameter here (configured by the radius and name-threshold
arguments, which the black box consumes). -/
def conflate_place (spatial : List CandidateMatch) (store : Store)
    (name : String) (lat lon : Rat) (g a : Option String)
    (radius nameThreshold : Rat) : List CandidateMatch :=
  match store.find? (fun r =>
      (g.isSome && r.google_place_id == g) || (a.isSome && r.apple_place_id == a)) with
  | some r =>
      [{ matched_source := r.table
         matched_id := r.id
         matched_name := r.name
         match_confidence := 1
         distance_meters := 0
         google_place_id := r.google_place_id
         apple_place_id := r.apple_place_id }]
  | none => spatial

/-- `resolve` wired to the spec-modelled `conflate_place` RPC exactly as
the service calls it (identifiers passed through `x || null`, radius 50,
name threshold 0.7). -/
def resolveConflate (spatial : List CandidateMatch) (store : Store)
    (req : ResolveRequest) (uuid : String) :
    Except String (Store × ResolveResponse) :=
  resolve store
    (Except.ok (conflate_place spatial store req.name req.lat req.lon
      (orUndef req.google_place_id) (orUndef req.apple_place_id) 50 (7/10)))
    req uuid

/-- The bridge response object. -/
structure BridgeResponse where
  place_id : String
  name : String
  lat : Rat
  lon : Rat
  category : Option String
  target_pli : Option String
  resolution_hint : Hint
  address : Address
deriving DecidableEq, Repr

/-- Embedding of `PLIService.getBridge`. -/
def getBridge (store : Store) (placeId : String) (targetPlatform : Platform) :
    Except String BridgeResponse :=
  let table := if jsStartsWith placeId "custom_" then Source.custom_places else Source.places
  match store.find? (fun r => r.table == table && r.id == placeId) with
  | none => Except.error ("Place not found: " ++ placeId)
  | some data =>
    let targetPli :=
      if targetPlatform = Platform.ios then data.apple_place_id else data.google_place_id
    let formattedAddress :=
      if jsStartsWith placeId "custom_" then data.formatted_address else none
    Except.ok
      { place_id := data.id
        name := data.name
        lat := data.lat
        lon := data.lon
        category := data.primary_category
        target_pli := orUndef targetPli
        resolution_hint := if truthy targetPli then Hint.cached else Hint.search_required
        address := formatAddress data.street data.city data.state data.postcode
          data.country formattedAddress }

/-- One row returned by the `find_nearby_place_new` RPC. -/
structure NearbyRow where
  place_id : String
  place_name : String
  distance_meters : Rat
  category : Option String := none
  street : Option String := none
  city : Option String := none
  state : Option String := none
  postcode : Option String := none
  country : Option String := none
deriving DecidableEq, Repr

/-- The object `PLIService.findNearby` returns when a place is found. -/
structure NearbyPlace where
  place_id : String
  name : String
  distance_meters : Rat
  category : Option String
  address : Address
deriving DecidableEq, Repr

/-- Embedding of `PLIService.findNearby`; `rpc` is the outcome of the
`find_nearby_place_new` RPC call (an RPC error or an empty row list both
yield `null`). -/
def findNearby (rpc : Except String (List NearbyRow)) : Option NearbyPlace :=
  match rpc with
  | Except.error _ => none
  | Except.ok rows =>
    match rows.head? with
    | none => none
    | some place =>
      some
        { place_id := place.place_id
          name := place.place_name
          distance_meters := place.distance_meters
          category := place.category
          address := formatAddress place.street place.city place.state place.postcode
            place.country none }

/-- The JSON body of a `POST /places/find-nearby` request
(`radius_meters` absent means the zod default applies). -/
structure FindNearbyBody where
  lat : Rat
  lon : Rat
  radius_meters : Option Rat := none
deriving DecidableEq, Repr

/-- The zod `findNearbySchema` validation: lat in [-90, 90], lon in
[-180, 180], radius in [10, 500] defaulting to 100. -/
def parseFindNearby (b : FindNearbyBody) : Option (Rat × Rat × Rat) :=
  if -90 ≤ b.lat ∧ b.lat ≤ 90 ∧ -180 ≤ b.lon ∧ b.lon ≤ 180 then
    match b.radius_meters with
    | none => some (b.lat, b.lon, 100)
    | some r => if 10 ≤ r ∧ r ≤ 500 then some (b.lat, b.lon, r) else none
  else none

/-- HTTP response of the `find-nearby` route (status plus JSON fields). -/
structure FindNearbyResponse where
  status : Nat
  success : Bool
  nearby_place : Option NearbyPlace
  errorCode : Option String
deriving DecidableEq, Repr

/-- Embedding of the `POST /places/find-nearby` route handler; `rpc` is
the outcome of the RPC call issued for the validated coordinates. -/
def findNearbyRoute (b : FindNearbyBody) (rpc : Except String (List NearbyRow)) :
    FindNearbyResponse :=
  match parseFindNearby b with
  | none =>
      { status := 400
        success := false
        nearby_place := none
        errorCode := some "VALIDATION_ERROR" }
  | some _ =>
      { status := 200
        success := true
        nearby_place := findNearby rpc
        errorCode := none }

/-- The `try { body } catch { return fallback }` shape of every cache
service method: an exception raised inside the body is absorbed and the
fallback value is returned normally. -/
def tryCatch {α : Type} (body : Except String α) (fallback : α) : Except String α :=
  match body with
  | Except.ok v => Except.ok v
  | Except.error _ => Except.ok fallback

/-- Body of `CacheService.getSearchResults` before the catch: read the
key from Redis (`redisGet` outcome), treat null as a miss, otherwise
`JSON.parse` the blob (`parse` outcome). Either step may throw. -/
def getSearchResultsBody {α : Type} (redisGet : Except String (Option String))
    (parse : String → Except String α) : Except String (Option α) := do
  let cached ← redisGet
  match cached with
  | none => pure none
  | some s => do
    let v ← parse s
    pure (some v)

/-- Embedding of `CacheService.getSearchResults`: the body wrapped in the
catch-all that logs and returns null. -/
def getSearchResults {α : Type} (redisGet : Except String (Option String))
    (parse : String → Except String α) : Except String (Option α) :=
  tryCatch (getSearchResultsBody redisGet parse) none

/-- Embedding of `CacheService.setSearchResults`: serialize and `setex`
(`redisSet` outcome), errors swallowed. -/
def setSearchResults (redisSet : Except String Unit) : Except String Unit :=
  tryCatch redisSet ()

/-- Body of `CacheService.getPlace` before the catch (same shape as the
search-result read, with the `place:{id}` key). -/
def getPlaceBody {α : Type} (redisGet : Except String (Option String))
    (parse : String → Except String α) : Except String (Option α) := do
  let cached ← redisGet
  match cached with
  | none => pure none
  | some s => do
    let v ← parse s
    pure (some v)

/-- Embedding of `CacheService.getPlace`. -/
def getPlace {α : Type} (redisGet : Except String (Option String))
    (parse : String → Except String α) : Except String (Option α) :=
  tryCatch (getPlaceBody redisGet parse) none

/-- Embedding of `CacheService.setPlace`: errors swallowed. -/
def setPlace (redisSet : Except String Unit) : Except String Unit :=
  tryCatch redisSet ()

/-- JSON.stringify of a flat object with string values, in key order
(braces written as escapes). -/
def jsonStringify (l : List (String × String)) : String :=
  "\x7b" ++
    String.intercalate ","
      (l.map (fun p => "\"" ++ p.1 ++ "\":\"" ++ p.2 ++ "\"")) ++
    "\x7d"

/-- Embedding of `CacheService.generateCacheKey`: rebuild the parameter
object with its keys sorted, then `pre:JSON.stringify(sorted)`. -/
def generateCacheKey (pre : String) (params : List (String × String)) : String :=
  let sortedParams := params.mergeSort (fun x y => x.1 ≤ y.1)
  pre ++ ":" ++ jsonStringify sortedParams

/-- The platform identifier a resolve request supplies for a platform. -/
def reqPLI (req : ResolveRequest) : Platform → Option String
  | Platform.ios => req.apple_place_id
  | Platform.android => req.google_place_id

/-- Sample canonical row for the C1 witness: Apple identifier already
populated. -/
def recW1 : PlaceRecord :=
  { id := "p1"
    table := Source.places
    name := "Blue Bottle Coffee"
    lat := 0
    lon := 0
    apple_place_id := some "A" }

/-- Sample store for the C1 witness. -/
def storeW1 : Store := [recW1]

/-- Sample iOS observation carrying a different Apple identifier. -/
def reqW1 : ResolveRequest :=
  { apple_place_id := some "B"
    lat := 0
    lon := 0
    name := "Blue Bottle Coffee"
    source_platform := Platform.ios }

/-- Sample conflation row matching `recW1` spatially. -/
def mW1 : CandidateMatch :=
  { matched_source := Source.places
    matched_id := "p1"
    matched_name := "Blue Bottle Coffee"
    match_confidence := 9/10
    distance_meters := 5 }

/-- Sample canonical row for the C2 witness with a linked Google
identifier. -/
def recW2 : PlaceRecord :=
  { id := "gers1"
    table := Source.places
    name := "Starbucks"
    lat := 0
    lon := 0
    google_place_id := some "ChIJabc" }

/-- Sample store for the C2 witness. -/
def storeW2 : Store := [recW2]

/-- Second observation of the C2 scenario, carrying the same Google
identifier. -/
def reqW2 : ResolveRequest :=
  { google_place_id := some "ChIJabc"
    lat := 0
    lon := 0
    name := "Starbucks"
    source_platform := Platform.android }

/-- The scenario observation of claim C3: street supplied, no country. -/
def reqC3 : ResolveRequest :=
  { google_place_id := some "ChIJabc"
    lat := 40758/1000
    lon := -739855/10000
    name := "Starbucks"
    address := some { street := some "1 Main St" }
    source_platform := Platform.android }

/-- Canonical row of the C4 scenario: Google identifier linked, Apple
identifier unset. -/
def recC4 : PlaceRecord :=
  { id := "p1"
    table := Source.places
    name := "Cafe"
    lat := 0
    lon := 0
    google_place_id := some "g1" }

/-- Sample store for the C4 counterexample. -/
def storeC4 : Store := [recC4]

/-- Android observation that also carries an Apple identifier. -/
def reqC4 : ResolveRequest :=
  { google_place_id := some "g1"
    apple_place_id := some "APPLE"
    lat := 0
    lon := 0
    name := "Cafe"
    source_platform := Platform.android }

/-- Conflation row matching `recC4` by its exact Google identifier. -/
def mC4 : CandidateMatch :=
  { matched_source := Source.places
    matched_id := "p1"
    matched_name := "Cafe"
    match_confidence := 1
    distance_meters := 0
    google_place_id := some "g1" }

/-- Sample custom row for the C7 witness with a stored Apple identifier
and pre-formatted address. -/
def recW7 : PlaceRecord :=
  { id := "custom_1"
    table := Source.custom_places
    name := "Pub"
    lat := 0
    lon := 0
    apple_place_id := some "apl7"
    formatted_address := some "5 High St" }

/-- Sample store for the C7 witness. -/
def storeW7 : Store := [recW7]

/-- Observation for the C7 counterexample: carries an empty-string
Apple identifier, which the resolve route's schema does not reject
(`z.string().optional()`, no `.min(1)`) and which `|| null` hides from
conflation. -/
def reqC7 : ResolveRequest :=
  { apple_place_id := some ""
    lat := 0
    lon := 0
    name := "Kiosk"
    source_platform := Platform.ios }

/-- Sample row for the C10 witness: Google identifier already set. -/
def recW10 : PlaceRecord :=
  { id := "p2"
    table := Source.places
    name := "Cafe"
    lat := 0
    lon := 0
    google_place_id := some "G" }

/-- Sample store for the C10 witness. -/
def storeW10 : Store := [recW10]

/-- Sample valid body for the C9 witness (radius left to its default). -/
def bodyW9 : FindNearbyBody := { lat := 0, lon := 0 }

/-- Strict key order on parameter pairs, vacuously antisymmetric. -/
instance : IsAntisymm (String × String) (fun x y => x.1 < y.1) :=
  ⟨fun a _ h1 h2 => absurd (lt_trans h1 h2) (lt_irrefl a.1)⟩

/-- C8 (counterexample): for an address with street `"1 Main St"` and
country `"US"` and no stored pre-formatted string, the code synthesizes
`"1 Main St"`, not the claimed join `"1 Main St, US"` that includes the
country component. -/
theorem c8_formatAddress_counterexample :
    (formatAddress (some "1 Main St") none none none (some "US") none).formatted
      ≠ claimFormattedWithCountry (some "1 Main St") none none none (some "US") := by
  decide

/-- C8 (amended): for every address formatted for output with no stored
pre-formatted string, the synthesized formatted string equals the
record's non-blank street, city, state and postcode components joined
with `", "`; the country component is not part of the join. -/
theorem c8_formatAddress_amended (street city state postcode country : Option String) :
    (formatAddress street city state postcode country none).formatted
      = amendedFormatted street city state postcode := by
  simp [formatAddress, amendedFormatted, jsOr, truthy]

/-- Reading a platform identifier column after writing one. -/
theorem getPLI_setPLI (r : PlaceRecord) (p q : Platform) (w : String) :
    getPLI (setPLI r q w) p = if p = q then some w else getPLI r p := by
  cases p <;> cases q <;> simp [getPLI, setPLI]

/-- A conditional row update keeps an already-populated value whenever
the per-row function keeps it on filtered rows. -/
theorem updateWhere_preserves (store : Store) (filt : PlaceRecord → Bool)
    (f : PlaceRecord → PlaceRecord) (i : Nat) (r : PlaceRecord) (p : Platform) (v : String)
    (hr : store[i]? = some r) (hv : getPLI r p = some v)
    (hf : ∀ x, filt x = true → getPLI x p = some v → getPLI (f x) p = some v) :
    (updateWhere store filt f)[i]?.map (fun x => getPLI x p) = some (some v) := by
  unfold updateWhere
  rw [List.getElem?_map, hr]
  by_cases h : filt r
  · simp [h, hf r h hv]
  · simp [h, hv]

/-- `cachePLI` either leaves the store alone or is one conditional
update writing the source platform's supplied identifier. -/
theorem cachePLI_cases (store : Store) (table : Source) (placeId : String)
    (req : ResolveRequest) :
    cachePLI store table placeId req = store ∨
    cachePLI store table placeId req =
      updateWhere store
        (fun r => r.table == table && r.id == placeId &&
          (getPLI r req.source_platform).isNone)
        (fun r => setPLI r req.source_platform ((reqPLI req req.source_platform).getD "")) := by
  unfold cachePLI
  cases hsp : req.source_platform
  case ios =>
    cases hta : truthy req.apple_place_id
    · left
      simp [hta]
    · right
      simp [hta, reqPLI]
  case android =>
    cases htg : truthy req.google_place_id
    · left
      simp [htg]
    · right
      simp [htg, reqPLI]

/-- `cachePLI` never changes an already-populated platform identifier. -/
theorem cachePLI_preserves (store : Store) (table : Source) (placeId : String)
    (req : ResolveRequest) (i : Nat) (r : PlaceRecord) (p : Platform) (v : String)
    (hr : store[i]? = some r) (hv : getPLI r p = some v) :
    (cachePLI store table placeId req)[i]?.map (fun x => getPLI x p) = some (some v) := by
  rcases cachePLI_cases store table placeId req with h | h
  · rw [h, hr]
    simp [hv]
  · rw [h]
    refine updateWhere_preserves store _ _ i r p v hr hv ?_
    intro x hx hvx
    have hnone : (getPLI x req.source_platform).isNone = true := by
      simp only [Bool.and_eq_true] at hx
      exact hx.2
    rw [getPLI_setPLI]
    by_cases hpq : p = req.source_platform
    · rw [hpq] at hvx
      rw [hvx] at hnone
      simp at hnone
    · simp [hpq, hvx]

/-- The store after `resolve` is the old store, a `cachePLI` update of
it, or the old store with the fresh custom row appended. -/
theorem resolveStore_cases (store : Store) (rpc : Except String (List CandidateMatch))
    (req : ResolveRequest) (uuid : String) :
    resolveStore store rpc req uuid = store ∨
    (∃ t pid, resolveStore store rpc req uuid = cachePLI store t pid req) ∨
    resolveStore store rpc req uuid = store ++ [customRecord req uuid] := by
  cases rpc with
  | error e => exact Or.inl rfl
  | ok ms =>
    cases hms : ms.head? with
    | none =>
      refine Or.inr (Or.inr ?_)
      unfold resolveStore resolve
      simp only [hms]
    | some m =>
      by_cases hsrc : m.matched_source = Source.places
      · refine Or.inr (Or.inl ⟨Source.places, m.matched_id, ?_⟩)
        unfold resolveStore resolve
        simp only [hms, if_pos hsrc]
      · refine Or.inr (Or.inl ⟨Source.custom_places, m.matched_id, ?_⟩)
        unfold resolveStore resolve
        simp only [hms, if_neg hsrc]

/-- C1: once a canonical row's platform identifier column is populated,
no subsequent `resolve` call (whatever its conflation outcome and
whatever identifiers it carries) and no `syncPLI` call changes it: both
only ever write a platform identifier column that is currently null. -/
theorem c1_platform_identifier_write_once (store : Store)
    (rpc : Except String (List CandidateMatch)) (req : ResolveRequest) (uuid : String)
    (placeId : String) (platform : Platform) (pli : String) (backendError : Bool)
    (i : Nat) (r : PlaceRecord) (p : Platform) (v : String)
    (hr : store[i]? = some r) (hv : getPLI r p = some v) :
    (resolveStore store rpc req uuid)[i]?.map (fun x => getPLI x p) = some (some v) ∧
    ((syncPLI store placeId platform pli backendError).1)[i]?.map (fun x => getPLI x p)
      = some (some v) := by
  constructor
  · rcases resolveStore_cases store rpc req uuid with h | ⟨t, pid, h⟩ | h
    · rw [h, hr]
      simp [hv]
    · rw [h]
      exact cachePLI_preserves store t pid req i r p v hr hv
    · rw [h]
      have hlen : i < store.length := (List.getElem?_eq_some.mp hr).1
      rw [List.getElem?_append]
      simp [hlen, hr, hv]
  · unfold syncPLI
    cases backendError
    case false =>
      simp only [Bool.false_eq_true, if_false]
      refine updateWhere_preserves store _ _ i r p v hr hv ?_
      intro x hx hvx
      have hnone : (getPLI x platform).isNone = true := by
        simp only [Bool.and_eq_true] at hx
        exact hx.2
      rw [getPLI_setPLI]
      by_cases hpq : p = platform
      · rw [hpq] at hvx
        rw [hvx] at hnone
        simp at hnone
      · simp [hpq, hvx]
    case true =>
      simp [hr, hv]

/-- C1 witness: a spatially matched iOS observation carrying Apple
identifier `"B"` and a `syncPLI` carrying `"other"` both leave the
stored Apple identifier `"A"` untouched. -/
theorem c1_platform_identifier_write_once_witness :
    (resolveStore storeW1 (Except.ok [mW1]) reqW1 "u")[0]?.map
        (fun x => getPLI x Platform.ios) = some (some "A") ∧
    ((syncPLI storeW1 "p1" Platform.ios "other" false).1)[0]?.map
        (fun x => getPLI x Platform.ios) = some (some "A") :=
  c1_platform_identifier_write_once storeW1 (Except.ok [mW1]) reqW1 "u" "p1" Platform.ios
    "other" false 0 recW1 Platform.ios "A" (by decide) (by decide)

/-- Row-level effect of `cachePLI` on a row of the targeted table and
id: the source platform's identifier column is written exactly when the
request supplies a non-empty identifier for that platform and the
column is currently null; otherwise the row is unchanged. -/
theorem cachePLI_row_effect (store : Store) (table : Source) (placeId : String)
    (req : ResolveRequest) (i : Nat) (r : PlaceRecord)
    (hr : store[i]? = some r) (ht : r.table = table) (hid : r.id = placeId) :
    (cachePLI store table placeId req)[i]? =
      some (if getPLI r req.source_platform = none ∧ truthy (reqPLI req req.source_platform)
            then setPLI r req.source_platform ((reqPLI req req.source_platform).getD "")
            else r) := by
  unfold cachePLI
  cases hsp : req.source_platform
  case ios =>
    cases hta : truthy req.apple_place_id
    · simp [hta, reqPLI, hr]
    · by_cases hn : getPLI r Platform.ios = none
      · simp [hta, reqPLI, updateWhere, List.getElem?_map, hr, ht, hid, hn]
      · simp [hta, reqPLI, updateWhere, List.getElem?_map, hr, ht, hid, hn,
          Option.isNone_iff_eq_none]
  case android =>
    cases htg : truthy req.google_place_id
    · simp [htg, reqPLI, hr]
    · by_cases hn : getPLI r Platform.android = none
      · simp [htg, reqPLI, updateWhere, List.getElem?_map, hr, ht, hid, hn]
      · simp [htg, reqPLI, updateWhere, List.getElem?_map, hr, ht, hid, hn,
          Option.isNone_iff_eq_none]

/-- C4 (amended): after a conflation match, `resolve` links only the
identifier of the observation's source platform: on the matched row
that platform's column is written exactly when the observation supplies
a non-empty identifier for it and the column is currently unset, and
nothing else on the row changes — in particular an identifier the
observation supplies for the other platform is never written. -/
theorem c4_match_links_source_platform_only (store : Store) (m : CandidateMatch)
    (rest : List CandidateMatch) (req : ResolveRequest) (uuid : String)
    (i : Nat) (r : PlaceRecord)
    (hr : store[i]? = some r) (ht : r.table = m.matched_source)
    (hid : r.id = m.matched_id) :
    (resolveStore store (Except.ok (m :: rest)) req uuid)[i]? =
      some (if getPLI r req.source_platform = none ∧ truthy (reqPLI req req.source_platform)
            then setPLI r req.source_platform ((reqPLI req req.source_platform).getD "")
            else r) := by
  have hhead : (m :: rest).head? = some m := rfl
  by_cases hsrc : m.matched_source = Source.places
  · have hst : resolveStore store (Except.ok (m :: rest)) req uuid
        = cachePLI store Source.places m.matched_id req := by
      unfold resolveStore resolve
      simp only [hhead, if_pos hsrc]
    rw [hst]
    exact cachePLI_row_effect store Source.places m.matched_id req i r hr
      (ht.trans hsrc) hid
  · have hsrc2 : m.matched_source = Source.custom_places := by
      cases hq : m.matched_source
      · exact absurd hq hsrc
      · rfl
    have hst : resolveStore store (Except.ok (m :: rest)) req uuid
        = cachePLI store Source.custom_places m.matched_id req := by
      unfold resolveStore resolve
      simp only [hhead, if_neg hsrc]
    rw [hst]
    exact cachePLI_row_effect store Source.custom_places m.matched_id req i r hr
      (ht.trans hsrc2) hid

/-- C4 (counterexample): the android observation `reqC4` supplies an
Apple identifier, the matched row `recC4` has no Apple identifier, yet
after `resolve` the row's Apple column is still null — the supplied
cross-platform identifier is not written even though it is absent from
the record. -/
theorem c4_cross_platform_counterexample :
    truthy reqC4.apple_place_id = true ∧
    storeC4[0]?.map (fun x => getPLI x Platform.ios) = some none ∧
    (resolveStore storeC4 (Except.ok [mC4]) reqC4 "u")[0]?.map
      (fun x => getPLI x Platform.ios) = some none := by
  decide

/-- C4 witness: the amended statement instantiated on the concrete C4
scenario. -/
theorem c4_match_links_source_platform_only_witness :
    (resolveStore storeC4 (Except.ok [mC4]) reqC4 "u")[0]? =
      some (if getPLI recC4 reqC4.source_platform = none ∧
              truthy (reqPLI reqC4 reqC4.source_platform)
            then setPLI recC4 reqC4.source_platform
              ((reqPLI reqC4 reqC4.source_platform).getD "")
            else recC4) :=
  c4_match_links_source_platform_only storeC4 mC4 [] reqC4 "u" 0 recC4
    (by decide) (by decide) (by decide)

/-- C2: when the observation carries a platform identifier that already
matches a stored canonical row's identifier for that platform — i.e.
the spec-modelled `conflate_place` finds an exact identifier match —
`resolve` returns that row's id with method `exact_pli` (the code's
literal for the spec's `exact_identifier`) and confidence exactly 1. -/
theorem c2_resolve_exact_identifier (spatial : List CandidateMatch) (store : Store)
    (req : ResolveRequest) (uuid : String) (r : PlaceRecord)
    (hfind : store.find? (fun x =>
        ((orUndef req.google_place_id).isSome &&
          x.google_place_id == orUndef req.google_place_id) ||
        ((orUndef req.apple_place_id).isSome &&
          x.apple_place_id == orUndef req.apple_place_id)) = some r) :
    (resolveConflate spatial store req uuid).toOption.map
        (fun su => (su.2.resolution.method, su.2.resolution.confidence, su.2.place.id))
      = some (Method.exact_pli, 1, r.id) := by
  unfold resolveConflate conflate_place
  rw [hfind]
  cases htb : r.table
  case places =>
    unfold resolve
    simp [htb]
    exact ⟨_, _, rfl, rfl, rfl, rfl⟩
  case custom_places =>
    unfold resolve
    simp [htb]
    exact ⟨_, _, rfl, rfl, rfl, rfl⟩

/-- C2 witness: the second observation of the scenario, carrying the
already-linked Google identifier `"ChIJabc"`, resolves to `recW2` with
method `exact_pli` and confidence 1. -/
theorem c2_resolve_exact_identifier_witness :
    (resolveConflate [] storeW2 reqW2 "u").toOption.map
        (fun su => (su.2.resolution.method, su.2.resolution.confidence, su.2.place.id))
      = some (Method.exact_pli, 1, recW2.id) :=
  c2_resolve_exact_identifier [] storeW2 reqW2 "u" recW2 (by decide)

/-- C3 (amended): when conflation returns no candidate, `resolve`
persists a new custom row whose id is `"custom_" ++ uuid`, carrying the
observation's name, coordinate, category, platform identifiers, contact
fields and address components — with country defaulting to `"US"` when
the observation supplies none — and responds with method
`created_custom` (the code's literal for the spec's `created_new`) and
confidence 0.5. -/
theorem c3_resolve_creates_custom (store : Store) (req : ResolveRequest) (uuid : String) :
    resolve store (Except.ok []) req uuid
      = Except.ok (store ++
          [{ id := "custom_" ++ uuid
             table := Source.custom_places
             name := req.name
             lat := req.lat
             lon := req.lon
             primary_category := req.category
             google_place_id := req.google_place_id
             apple_place_id := req.apple_place_id
             formatted_address := req.address.bind (fun a => a.formatted)
             street := req.address.bind (fun a => a.street)
             city := req.address.bind (fun a => a.city)
             state := req.address.bind (fun a => a.state)
             postcode := req.address.bind (fun a => a.postcode)
             country := some (jsOrD (req.address.bind (fun a => a.country)) "US")
             phone := req.phone
             website := req.website
             source_platform := some req.source_platform }],
          { success := true
            place :=
              { id := "custom_" ++ uuid
                source := Source.custom_places
                name := req.name
                lat := req.lat
                lon := req.lon
                category := req.category
                google_place_id := req.google_place_id
                apple_place_id := req.apple_place_id
                address := req.address }
            resolution :=
              { method := Method.created_custom
                confidence := 1/2
                distance_meters := none } }) ∧
    jsStartsWith ("custom_" ++ uuid) "custom_" = true := by
  constructor
  · rfl
  · unfold jsStartsWith
    rw [show ("custom_" ++ uuid).toList = "custom_".toList ++ uuid.toList from rfl,
      List.take_left, beq_self_eq_true]

/-- C3 (counterexample): for the scenario observation `reqC3`, whose
address has a street but no country, the persisted custom row carries
country `"US"` — not the observation's absent country field — so the new
record does not carry exactly the observation's address fields. -/
theorem c3_country_counterexample :
    (resolveStore [] (Except.ok []) reqC3 "u1").map (fun x => x.country) = [some "US"] ∧
    reqC3.address.bind (fun a => a.country) = none := by
  decide

/-- A conditional update whose filter rejects every row is the
identity. -/
theorem updateWhere_id (store : Store) (filt : PlaceRecord → Bool)
    (f : PlaceRecord → PlaceRecord) (h : ∀ x ∈ store, filt x = false) :
    updateWhere store filt f = store := by
  unfold updateWhere
  have hc : ∀ x ∈ store, (if filt x then f x else x) = x := by
    intro x hx
    simp [h x hx]
  rw [List.map_congr_left hc, List.map_id']

/-- C10: a `syncPLI` whose database update completes without a backend
error reports `success = true` even when every row of the targeted
place already has the platform column populated, so that the
conditional write-once update modifies no row: the result is exactly
`(store, true)` with the store unchanged, and the caller cannot
distinguish a performed write from a skipped write-once no-op. -/
theorem c10_syncPLI_success_opaque (store : Store) (placeId : String)
    (platform : Platform) (pli : String)
    (hall : ∀ x ∈ store,
      x.table = (if jsStartsWith placeId "custom_"
                 then Source.custom_places else Source.places) →
      x.id = placeId → (getPLI x platform).isSome = true) :
    syncPLI store placeId platform pli false = (store, true) := by
  have hfalse : ∀ x ∈ store,
      ((x.table == (if jsStartsWith placeId "custom_"
                    then Source.custom_places else Source.places)) &&
        (x.id == placeId) && (getPLI x platform).isNone) = false := by
    intro x hx
    by_cases h1 : x.table = (if jsStartsWith placeId "custom_"
                             then Source.custom_places else Source.places)
    · by_cases h2 : x.id = placeId
      · have hs := hall x hx h1 h2
        have hnone : (getPLI x platform).isNone = false := by
          rw [← Bool.not_eq_true, Option.isNone_iff_eq_none]
          intro hcontra
          rw [hcontra] at hs
          simp at hs
        simp [h1, h2, hnone]
      · simp [h2]
    · simp [h1]
  unfold syncPLI
  simp only [Bool.false_eq_true, if_false]
  rw [updateWhere_id store _ _ hfalse]

/-- C10 witness: syncing `"G2"` onto a place whose Google identifier is
already `"G"` leaves the store unchanged and still reports success. -/
theorem c10_syncPLI_success_opaque_witness :
    syncPLI storeW10 "p2" Platform.android "G2" false = (storeW10, true) :=
  c10_syncPLI_success_opaque storeW10 "p2" Platform.android "G2" (by decide)

/-- C5: the generated cache key is identical for two parameter maps
holding the same key-to-value bindings in any presentation order (keys
of an object are distinct). -/
theorem c5_cache_key_order_independent (pre : String) (p1 p2 : List (String × String))
    (hperm : p1.Perm p2) (hkeys : p1.Pairwise (fun x y => x.1 ≠ y.1)) :
    generateCacheKey pre p1 = generateCacheKey pre p2 := by
  unfold generateCacheKey
  have htrans : ∀ a b c : String × String,
      (decide (a.1 ≤ b.1)) = true → (decide (b.1 ≤ c.1)) = true →
      (decide (a.1 ≤ c.1)) = true := by
    intro a b c hab hbc
    simp only [decide_eq_true_iff] at *
    exact le_trans hab hbc
  have htotal : ∀ a b : String × String,
      ((decide (a.1 ≤ b.1)) || (decide (b.1 ≤ a.1))) = true := by
    intro a b
    simp only [Bool.or_eq_true, decide_eq_true_iff]
    exact le_total a.1 b.1
  have hsort : p1.mergeSort (fun x y => x.1 ≤ y.1) = p2.mergeSort (fun x y => x.1 ≤ y.1) := by
    have hp : (p1.mergeSort (fun x y => decide (x.1 ≤ y.1))).Perm
        (p2.mergeSort (fun x y => decide (x.1 ≤ y.1))) :=
      ((List.mergeSort_perm p1 _).trans hperm).trans (List.mergeSort_perm p2 _).symm
    have hsym : ∀ {x y : String × String}, x.1 ≠ y.1 → y.1 ≠ x.1 := fun h => h.symm
    have hne1 : (p1.mergeSort (fun x y => decide (x.1 ≤ y.1))).Pairwise
        (fun x y => x.1 ≠ y.1) :=
      ((List.mergeSort_perm p1 _).pairwise_iff hsym).mpr hkeys
    have hne2 : (p2.mergeSort (fun x y => decide (x.1 ≤ y.1))).Pairwise
        (fun x y => x.1 ≠ y.1) :=
      ((List.mergeSort_perm p2 _).pairwise_iff hsym).mpr
        ((hperm.pairwise_iff hsym).mp hkeys)
    have hs1 := List.sorted_mergeSort htrans htotal p1
    have hs2 := List.sorted_mergeSort htrans htotal p2
    have hstrict1 : List.Sorted (fun x y : String × String => x.1 < y.1)
        (p1.mergeSort (fun x y => decide (x.1 ≤ y.1))) :=
      (hs1.and hne1).imp (fun h =>
        lt_of_le_of_ne (by simpa using h.1) h.2)
    have hstrict2 : List.Sorted (fun x y : String × String => x.1 < y.1)
        (p2.mergeSort (fun x y => decide (x.1 ≤ y.1))) :=
      (hs2.and hne2).imp (fun h =>
        lt_of_le_of_ne (by simpa using h.1) h.2)
    exact List.eq_of_perm_of_sorted hp hstrict1 hstrict2
  rw [hsort]

/-- C5 witness: the same two bindings in swapped order give the same
key. -/
theorem c5_cache_key_order_independent_witness :
    generateCacheKey "search" [("lat", "40"), ("query", "coffee")]
      = generateCacheKey "search" [("query", "coffee"), ("lat", "40")] :=
  c5_cache_key_order_independent "search"
    [("lat", "40"), ("query", "coffee")] [("query", "coffee"), ("lat", "40")]
    (by decide) (by decide)

/-- A caught body always returns normally. -/
theorem tryCatch_isOk {α : Type} (body : Except String α) (fallback : α) :
    (tryCatch body fallback).isOk = true := by
  cases body <;> rfl

/-- C6: a cache backend error never propagates to the caller: a failed
read returns null (treated as a miss), a failed write returns normally
as a no-op, and every cache method returns normally for every backend
outcome. -/
theorem c6_cache_errors_never_propagate {α : Type} (e : String)
    (redisGet : Except String (Option String)) (parse : String → Except String α)
    (redisSet : Except String Unit) :
    getSearchResults (Except.error e) parse = Except.ok none ∧
    setSearchResults (Except.error e) = Except.ok () ∧
    getPlace (Except.error e) parse = Except.ok none ∧
    setPlace (Except.error e) = Except.ok () ∧
    (getSearchResults redisGet parse).isOk = true ∧
    (setSearchResults redisSet).isOk = true ∧
    (getPlace redisGet parse).isOk = true ∧
    (setPlace redisSet).isOk = true :=
  ⟨rfl, rfl, rfl, rfl, tryCatch_isOk _ _, tryCatch_isOk _ _, tryCatch_isOk _ _,
    tryCatch_isOk _ _⟩

/-- C7 (counterexample): a resolve call with an empty-string Apple
identifier (accepted by the route's schema and hidden from conflation
by `|| null`) persists a row whose Apple column stores `""`; on that
row `getBridge` returns no target identifier and hint
`search_required`, not the stored identifier with hint `cached`. -/
theorem c7_empty_identifier_counterexample :
    (resolveStore [] (Except.ok []) reqC7 "u2").map (fun x => getPLI x Platform.ios)
      = [some ""] ∧
    (getBridge (resolveStore [] (Except.ok []) reqC7 "u2") "custom_u2"
        Platform.ios).toOption.map (fun b => (b.target_pli, b.resolution_hint))
      = some (none, Hint.search_required) := by
  decide

/-- C7 (amended): for every `getBridge` call on an existing canonical
record, the response carries the record's basic fields; when the
target platform's identifier is stored as a non-empty string it is
returned with hint `cached`, and when it is absent — or stored as the
empty string, which the truthiness test treats as absent — no target
identifier is returned and the hint is `search_required`. -/
theorem c7_getBridge_amended (store : Store) (placeId : String) (tp : Platform)
    (data : PlaceRecord)
    (hfind : store.find? (fun r =>
        r.table == (if jsStartsWith placeId "custom_"
                    then Source.custom_places else Source.places) &&
        r.id == placeId) = some data) :
    (getBridge store placeId tp).toOption.map (fun b =>
        ((b.place_id, b.name, b.lat, b.lon, b.category), (b.target_pli, b.resolution_hint)))
      = some ((data.id, data.name, data.lat, data.lon, data.primary_category),
          match getPLI data tp with
          | some s => if s = "" then (none, Hint.search_required) else (some s, Hint.cached)
          | none => (none, Hint.search_required)) := by
  cases tp
  case ios =>
    simp only [getPLI]
    by_cases hn : data.apple_place_id = none
    · simp [getBridge, hfind, orUndef, truthy, hn]
      exact ⟨_, rfl, by and_intros <;> rfl⟩
    · obtain ⟨s, hs⟩ := Option.ne_none_iff_exists'.mp hn
      by_cases hse : s = ""
      · subst hse
        simp [getBridge, hfind, orUndef, truthy, hs]
        exact ⟨_, rfl, by and_intros <;> rfl⟩
      · have hsne : (s == "") = false := beq_eq_false_iff_ne.mpr hse
        simp [getBridge, hfind, orUndef, truthy, hs, hse, hsne]
        exact ⟨_, rfl, by and_intros <;> rfl⟩
  case android =>
    simp only [getPLI]
    by_cases hn : data.google_place_id = none
    · simp [getBridge, hfind, orUndef, truthy, hn]
      exact ⟨_, rfl, by and_intros <;> rfl⟩
    · obtain ⟨s, hs⟩ := Option.ne_none_iff_exists'.mp hn
      by_cases hse : s = ""
      · subst hse
        simp [getBridge, hfind, orUndef, truthy, hs]
        exact ⟨_, rfl, by and_intros <;> rfl⟩
      · have hsne : (s == "") = false := beq_eq_false_iff_ne.mpr hse
        simp [getBridge, hfind, orUndef, truthy, hs, hse, hsne]
        exact ⟨_, rfl, by and_intros <;> rfl⟩

/-- C7 witness: bridging the custom row `recW7` to iOS returns its
stored (non-empty) Apple identifier with hint `cached`. -/
theorem c7_getBridge_amended_witness :
    (getBridge storeW7 "custom_1" Platform.ios).toOption.map (fun b =>
        ((b.place_id, b.name, b.lat, b.lon, b.category), (b.target_pli, b.resolution_hint)))
      = some ((recW7.id, recW7.name, recW7.lat, recW7.lon, recW7.primary_category),
          match getPLI recW7 Platform.ios with
          | some s => if s = "" then (none, Hint.search_required) else (some s, Hint.cached)
          | none => (none, Hint.search_required)) :=
  c7_getBridge_amended storeW7 "custom_1" Platform.ios recW7 (by decide)

/-- C9: a `find-nearby` request with valid coordinates and radius for
which the nearby-place lookup finds no row within the radius yields
HTTP 200 with `success = true` and `nearby_place = null`. -/
theorem c9_find_nearby_no_match (b : FindNearbyBody) (p : Rat × Rat × Rat)
    (hv : parseFindNearby b = some p) :
    findNearbyRoute b (Except.ok [])
      = { status := 200, success := true, nearby_place := none, errorCode := none } := by
  unfold findNearbyRoute
  rw [hv]
  rfl

/-- C9 witness: the valid body at the origin with the default radius
and an empty lookup result. -/
theorem c9_find_nearby_no_match_witness :
    findNearbyRoute bodyW9 (Except.ok [])
      = { status := 200, success := true, nearby_place := none, errorCode := none } :=
  c9_find_nearby_no_match bodyW9 (0, 0, 100) (by decide)

end MapierHub
